import Mathlib

set_option maxRecDepth 8000

/-
Shallow embedding of src/temper.js (the Temper template-compiler dispatcher).

Modelling decisions, each traceable to the source:
- The three caches of the Temper constructor (lines 11-15) become the two
  fields of TemperState that the claims touch: required (engine name to
  loaded module) and installed (file extension to chosen engine name).
  The file cache (this.cache) is unused by the code under verification.
- Node require, file reading and require.resolve are external effects; they
  are modelled by an Env record: modules (which backend modules are
  acquirable, and the handle acquired), read (file path to contents) and
  resolveDir (path.dirname of require.resolve for an engine).
- Backend modules are black boxes (spec section 1); a Compiler record holds
  one abstract function per native entry point the code calls.
- Stateful methods are explicit state passers returning
  (result, new state, load-attempt log); the log records each attempt to
  acquire a module from the environment (a call of node require), so a
  cache hit in this.required logs nothing.
- Thrown JS errors become an Except with a TError tagged by throw site,
  carrying the exact message string the source builds.
-/

namespace Temper

/-- Options record passed to a backend client-mode compile call
(src/temper.js lines 150-153 and 163-167). pretty is an Option because the
ejs call site omits the key while the jade call site passes true. -/
structure ClientOpts where
  client : Bool
  compileDebug : Bool
  pretty : Option Bool
deriving DecidableEq

/-- A loaded backend module, abstract over the native entry points the
source invokes: compileObjRender is the render method of the object
returned by a hogan-style compile; nativeCompile is a compile call whose
result is used directly as a render function; compileAsString is the hogan
compile with asString set; precompile is the handlebars precompile;
compileClient is a client-mode compile, already stringified. -/
structure Compiler where
  compileObjRender : String → String → String
  nativeCompile : String → String → String
  compileAsString : String → String
  precompile : String → String
  compileClient : String → ClientOpts → String

/-- The external world: which modules node require can acquire, file
contents, and the directory of an installed module (path.dirname of
require.resolve). read models Temper.prototype.read.
Modelled from the spec: Temper.prototype.read is called at line 175 of
src/temper.js but is not defined in the given sources; per spec section
4.3 it resolves a library file path and returns its contents, so it is an
abstract map from path to contents. -/
structure Env where
  modules : String → Option Compiler
  read : String → String
  resolveDir : String → String

/-- The mutable caches of a Temper instance (src/temper.js lines 12-14):
required maps an engine name to its loaded module, installed maps a file
extension to the engine chosen for it. -/
structure TemperState where
  required : String → Option Compiler
  installed : String → Option String

/-- A fresh Temper instance: both caches empty. -/
def initState : TemperState := { required := fun _ => none, installed := fun _ => none }

/-- The three throw sites of src/temper.js, with the exact message built
there: line 42 (require failure), line 70 (unknown extension),
line 90 (no engine loadable). -/
inductive TError where
  | unknownExtension (msg : String)
  | backendNotInstalled (msg : String)
  | noBackendAvailable (msg : String)
deriving DecidableEq

/-- Store a loaded module in the require cache (this.required[engine] = c). -/
def updRequired (st : TemperState) (engine : String) (c : Compiler) : TemperState :=
  { st with required := fun x => if x = engine then some c else st.required x }

/-- Record the chosen engine for an extension (this.installed[extname] = engine). -/
def updInstalled (st : TemperState) (ext engine : String) : TemperState :=
  { st with installed := fun x => if x = ext then some engine else st.installed x }

/-- Temper.prototype.require (src/temper.js lines 37-46): answer from the
require cache when present; otherwise attempt node require (one logged
load attempt). On failure throw with the exact message of line 42, leaving
the cache untouched; on success store the module and return it. -/
def requires (env : Env) (st : TemperState) (engine : String) :
    Except TError Compiler × TemperState × List String :=
  match st.required engine with
  | some c => (Except.ok c, st, [])
  | none =>
    match env.modules engine with
    | some c => (Except.ok c, updRequired st engine c, [engine])
    | none =>
      (Except.error (TError.backendNotInstalled
        ("The " ++ engine ++ " module isnt installed. Run npm install --save " ++ engine)),
       st, [engine])

/-- Index of the last occurrence of a character in a list, if any. -/
def lastIdxOf (c : Char) : List Char → Option Nat
  | [] => none
  | a :: rest =>
    match lastIdxOf c rest with
    | some i => some (i + 1)
    | none => if a = c then some 0 else none

/-- Basename of a path: the part after the last slash. -/
def basenameOf (file : String) : String :=
  match lastIdxOf '/' file.toList with
  | none => file
  | some i => String.mk (file.toList.drop (i + 1))

/-- JS Array.prototype.join with a separator (empty string for the empty
list, no trailing separator). -/
def joinWith (sep : String) : List String → String
  | [] => ""
  | [a] => a
  | a :: b :: rest => a ++ sep ++ joinWith sep (b :: rest)

/-- node path.extname: the suffix of the basename from its last dot, empty
when there is no dot, when the only dot leads a dotfile, or for the special
name made of two dots. -/
def extnameOf (file : String) : String :=
  let base := basenameOf file
  match lastIdxOf '.' base.toList with
  | none => ""
  | some i => if i = 0 ∨ base = ".." then "" else String.mk (base.toList.drop i)

/-- Temper.prototype.supported (src/temper.js lines 24-28): the backend
registry, an ordered candidate list per extension. -/
def supported (ext : String) : Option (List String) :=
  if ext = ".ejs" then some ["ejs"]
  else if ext = ".jade" then some ["jade"]
  else if ext = ".mustache" then some ["hogan.js", "mustache", "handlebars"]
  else none

/-- The filter callback loop of discover (src/temper.js lines 72-82):
list.filter over the candidates, where the callback tries requires, and on
success redundantly re-stores the module and records the engine for the
extension. Returns (kept candidates, final state, concatenated load log).
Note JS Array.filter visits every element; it does not stop at a success. -/
def filterProbe (env : Env) (ext : String) :
    TemperState → List String → List String × TemperState × List String
  | st, [] => ([], st, [])
  | st, engine :: rest =>
    match requires env st engine with
    | (Except.ok c, st1, log1) =>
      let st2 := updInstalled (updRequired st1 engine c) ext engine
      let r := filterProbe env ext st2 rest
      (engine :: r.1, r.2.1, log1 ++ r.2.2)
    | (Except.error _, st1, log1) =>
      let r := filterProbe env ext st1 rest
      (r.1, r.2.1, log1 ++ r.2.2)

/-- Temper.prototype.discover (src/temper.js lines 55-91): extension fast
path from the installed cache; unknown extension throws (line 70); otherwise
filter the candidate list through requires and return the first kept
candidate, or throw listing the candidates joined with the string or
(line 90). -/
def discover (env : Env) (st : TemperState) (file : String) :
    Except TError String × TemperState × List String :=
  let ext := extnameOf file
  match st.installed ext with
  | some engine => (Except.ok engine, st, [])
  | none =>
    match supported ext with
    | none =>
      (Except.error (TError.unknownExtension
        "Unknown file extensions, cannot detect template engine."), st, [])
    | some list =>
      let r := filterProbe env ext st list
      match r.1 with
      | engine :: _ => (Except.ok engine, r.2.1, r.2.2)
      | [] =>
        (Except.error (TError.noBackendAvailable
          ("No valid template engine installed, please install " ++ joinWith "or" list)),
         r.2.1, r.2.2)

/-- JS path.join of two segments, modelled as slash concatenation (node
also normalizes dot-dot segments; the claims only compare whole joined
paths, for which the unnormalized form is a faithful name of the file). -/
def pathJoin (a b : String) : String := a ++ "/" ++ b

/-- First-occurrence replacement on character lists, the semantics of the
JS String.replace the source uses at lines 153 and 167: replace only the
leftmost occurrence of pat, leave the string unchanged when pat is absent. -/
def replaceFirstL (pat rep : List Char) : List Char → List Char
  | [] => if pat.isPrefixOf ([] : List Char) then rep else []
  | a :: rest =>
    if pat.isPrefixOf (a :: rest) then rep ++ List.drop pat.length (a :: rest)
    else a :: replaceFirstL pat rep rest

/-- JS s.replace(pat, rep) for a string pattern: first occurrence only. -/
def replaceFirst (s pat rep : String) : String :=
  String.mk (replaceFirstL pat.toList rep.toList s.toList)

/-- The client string the hogan branch builds (src/temper.js lines
123-129): the join of the literal array around the asString compile
output. -/
def hoganClientString (precompiled : String) : String :=
  "(function hulk() \x7b" ++
    "var template = new Hogan.Template(" ++
      precompiled ++
    ");" ++
  "return function render(data) \x7b return template.render(data); \x7d;"

/-- The uniform result shape (src/temper.js lines 174-178). client and
server are undefined when no dispatch branch ran, hence Option. -/
structure CompileResult where
  library : String
  client : Option String
  server : Option (String → String)

/-- The library slot of the return statement (line 175): read the file when
a truthy path was set, else the empty string. -/
def libContents (env : Env) : Option String → String
  | none => ""
  | some p => if p = "" then "" else env.read p

/-- Temper.prototype.compile (src/temper.js lines 102-179): load the engine
through requires (an uncaught throw propagates), dispatch on the engine
name, and assemble the uniform result. Branch by branch from the source:
hogan wraps the compiled object in a render closure, precompiles asString
for the client and ships template.js; handlebars uses compile and
precompile and ships the dist runtime; ejs and jade compile directly,
client-compile with the option records of lines 150-152 and 163-166,
stringify and rename the anonymous function; unknown engines fall through
with every slot unset. -/
def compile (env : Env) (st : TemperState) (template engine name : String) :
    Except TError CompileResult × TemperState × List String :=
  match requires env st engine with
  | (Except.error e, st1, log) => (Except.error e, st1, log)
  | (Except.ok compiler, st1, log) =>
    match engine with
    | "hogan.js" =>
      let server := fun data => compiler.compileObjRender template data
      let client := hoganClientString (compiler.compileAsString template)
      let library := pathJoin (env.resolveDir engine) "template.js"
      (Except.ok { library := libContents env (some library),
                   client := some client, server := some server }, st1, log)
    | "handlebars" =>
      let server := compiler.nativeCompile template
      let client := compiler.precompile template
      let library := pathJoin (pathJoin (pathJoin (env.resolveDir engine) "..") "dist")
        "handlebars.runtime.js"
      (Except.ok { library := libContents env (some library),
                   client := some client, server := some server }, st1, log)
    | "ejs" =>
      let server := compiler.nativeCompile template
      let client := replaceFirst
        (compiler.compileClient template { client := true, compileDebug := false, pretty := none })
        "function anonymous" ("function " ++ name)
      (Except.ok { library := libContents env none,
                   client := some client, server := some server }, st1, log)
    | "jade" =>
      let server := compiler.nativeCompile template
      let client := replaceFirst
        (compiler.compileClient template { client := true, compileDebug := false, pretty := some true })
        "function anonymous" ("function " ++ name)
      let library := pathJoin (env.resolveDir engine) "runtime.js"
      (Except.ok { library := libContents env (some library),
                   client := some client, server := some server }, st1, log)
    | _ =>
      (Except.ok { library := libContents env none, client := none, server := none }, st1, log)

/-- Bracket-balance check for generated code: scan left to right tracking
parenthesis and brace depth; true when no close underflows and both depths
end at zero. -/
def balancedAux : List Char → Nat → Nat → Bool
  | [], parens, braces => parens == 0 && braces == 0
  | c :: rest, parens, braces =>
    if c = '(' then balancedAux rest (parens + 1) braces
    else if c = ')' then (parens != 0) && balancedAux rest (parens - 1) braces
    else if c = '\x7b' then balancedAux rest parens (braces + 1)
    else if c = '\x7d' then (braces != 0) && balancedAux rest parens (braces - 1)
    else balancedAux rest parens braces

/-- A string is bracket balanced when its parentheses and braces nest. -/
def balancedBrackets (s : String) : Bool := balancedAux s.toList 0 0

/-- An engine can be loaded in a state: already in the require cache, or
acquirable from the environment. -/
def loadable (env : Env) (st : TemperState) (engine : String) : Prop :=
  (∃ c, st.required engine = some c) ∨ (∃ c, env.modules engine = some c)

/-- A backend module whose every entry point is inert, used to build
concrete installation scenarios. Its asString precompile output is the
balanced literal null. -/
def trivialCompiler : Compiler :=
  { compileObjRender := fun _ _ => "", nativeCompile := fun _ _ => "",
    compileAsString := fun _ => "null", precompile := fun _ => "",
    compileClient := fun _ _ => "" }

/-- An environment with no backend installed. -/
def envNone : Env :=
  { modules := fun _ => none, read := fun _ => "", resolveDir := fun _ => "" }

/-- An environment where all three mustache candidates are installed. -/
def envAllMustache : Env :=
  { modules := fun e =>
      if e = "hogan.js" ∨ e = "mustache" ∨ e = "handlebars" then some trivialCompiler else none,
    read := fun _ => "", resolveDir := fun _ => "" }

/-- An environment where hogan.js and mustache are installed but
handlebars is not. -/
def envTwoMustache : Env :=
  { modules := fun e =>
      if e = "hogan.js" ∨ e = "mustache" then some trivialCompiler else none,
    read := fun _ => "", resolveDir := fun _ => "" }

/-- An environment where every module is installed, file contents are
observable as the path tagged with a marker, and each module resolves to a
distinctive directory. -/
def cenvAll : Env :=
  { modules := fun _ => some trivialCompiler,
    read := fun p => "contents of " ++ p,
    resolveDir := fun e => "/node_modules/" ++ e ++ "/lib" }

/-- An ejs-like module whose client-mode compile output carries the
anonymous-function placeholder (no braces needed for the scenario). -/
def ejsCompiler : Compiler :=
  { compileObjRender := fun _ _ => "", nativeCompile := fun _ _ => "",
    compileAsString := fun _ => "", precompile := fun _ => "",
    compileClient := fun t _ => "function anonymous(locals) return render of " ++ t }

/-- An environment where only ejs is installed. -/
def cenvEjs : Env :=
  { modules := fun e => if e = "ejs" then some ejsCompiler else none,
    read := fun _ => "", resolveDir := fun _ => "" }

/-- A loadable engine is answered positively by requires, from one cache or
the other. -/
theorem requires_ok_of_loadable (env : Env) (st : TemperState) (e : String)
    (h : loadable env st e) :
    ∃ c st1 log, requires env st e = (Except.ok c, st1, log) := by
  rcases h with ⟨c, hc⟩ | ⟨c, hc⟩
  · exact ⟨c, st, [], by simp [requires, hc]⟩
  · cases hsr : st.required e with
    | some c0 => exact ⟨c0, st, [], by simp [requires, hsr]⟩
    | none => exact ⟨c, updRequired st e c, [e], by simp [requires, hsr, hc]⟩

/-- A failing requires leaves the caches untouched. -/
theorem requires_error_state (env : Env) (st : TemperState) (e : String)
    (r : TError) (st1 : TemperState) (log : List String)
    (h : requires env st e = (Except.error r, st1, log)) : st1 = st := by
  unfold requires at h
  cases hsr : st.required e with
  | some c0 => simp [hsr] at h
  | none =>
    cases hm : env.modules e with
    | some c0 => simp [hsr, hm] at h
    | none =>
      rw [hsr, hm] at h
      exact (Prod.ext_iff.mp (Prod.ext_iff.mp h).2).1.symm

/-- When every candidate is uncached and unacquirable, the filter loop
keeps nothing, leaves the caches untouched and attempts each candidate
exactly once, in order. -/
theorem filterProbe_all_fail (env : Env) (ext : String) (st : TemperState)
    (list : List String)
    (hfail : ∀ e ∈ list, st.required e = none ∧ env.modules e = none) :
    filterProbe env ext st list = ([], st, list) := by
  induction list with
  | nil => rfl
  | cons e rest ih =>
    obtain ⟨hr, hm⟩ := hfail e (by simp)
    have hreq : requires env st e =
        (Except.error (TError.backendNotInstalled
          ("The " ++ e ++ " module isnt installed. Run npm install --save " ++ e)), st, [e]) := by
      simp [requires, hr, hm]
    have ihr := ih (fun x hx => hfail x (by simp [hx]))
    simp [filterProbe, hreq, ihr]

/-- If the filter loop kept no candidate, it mutated nothing. -/
theorem filterProbe_nil_state (env : Env) (ext : String) (st : TemperState)
    (list : List String) (stF : TemperState) (log : List String)
    (h : filterProbe env ext st list = ([], stF, log)) : stF = st := by
  induction list generalizing st log with
  | nil =>
    unfold filterProbe at h
    exact (Prod.ext_iff.mp (Prod.ext_iff.mp h).2).1.symm
  | cons e rest ih =>
    cases hreq : requires env st e with
    | mk res rest2 =>
      obtain ⟨stA, logA⟩ := rest2
      cases res with
      | ok c =>
        simp only [filterProbe, hreq] at h
        simp at h
      | error msg =>
        have hstA : stA = st := requires_error_state env st e msg stA logA hreq
        cases hfp : filterProbe env ext stA rest with
        | mk found3 rest3 =>
          obtain ⟨st3, log3⟩ := rest3
          simp only [filterProbe, hreq, hfp, Prod.mk.injEq] at h
          obtain ⟨h1, h2, h3⟩ := h
          have := ih stA log3 (by rw [hfp, h1, h2])
          exact this.trans hstA

/-- A joined path is never the empty string, so the library conditional of
the return statement always reads the file. -/
theorem pathJoin_ne_empty (a b : String) : pathJoin a b ≠ "" := by
  intro h
  have hl := congrArg String.length h
  simp [pathJoin, String.length_append] at hl
  exact absurd hl.1.2 (by decide)

/-- The library slot for a branch that set a joined path is the contents of
that path. -/
theorem libContents_pathJoin (env : Env) (a b : String) :
    libContents env (some (pathJoin a b)) = env.read (pathJoin a b) := by
  simp [libContents, pathJoin_ne_empty a b]

/-- C1: the claim that discover stops probing at the first loadable
candidate fails on the code: with all three mustache candidates installed,
discover returns the first candidate hogan.js, yet the load-attempt log
shows mustache and handlebars were still probed after that success
(Array.filter visits the whole list), and the resolution cache ends at the
last success. -/
theorem discover_probes_past_first_success :
    (discover envAllMustache initState "view.mustache").1 = Except.ok "hogan.js" ∧
    (discover envAllMustache initState "view.mustache").2.2 =
      ["hogan.js", "mustache", "handlebars"] ∧
    ((discover envAllMustache initState "view.mustache").2.1).installed ".mustache" =
      some "handlebars" :=
  ⟨rfl, rfl, rfl⟩

/-- C2: the claim that a second discover call returns the identifier of the
first fails on the code: with hogan.js and mustache both installed, the
first call returns hogan.js but records mustache (the last success) in the
resolution cache, so the second call returns mustache; the second call does
probe nothing (empty log), which is the one part of the claim the code
keeps. -/
theorem discover_second_call_disagrees :
    (discover envTwoMustache initState "view.mustache").1 = Except.ok "hogan.js" ∧
    ((discover envTwoMustache initState "view.mustache").2.1).installed ".mustache" =
      some "mustache" ∧
    (discover envTwoMustache
      ((discover envTwoMustache initState "view.mustache").2.1) "view.mustache").1 =
      Except.ok "mustache" ∧
    (discover envTwoMustache
      ((discover envTwoMustache initState "view.mustache").2.1) "view.mustache").2.2 = [] :=
  ⟨rfl, rfl, rfl, rfl⟩

/-- C9: the claim that the hogan client form is a balanced, self-contained
closure fails on the code: even for the balanced precompiled payload null,
the generated client string is bracket unbalanced (the wrapper opens a
parenthesis and a brace that are never closed), as the balance scan
reports. -/
theorem hogan_client_unbalanced :
    ((compile cenvAll initState "t" "hogan.js" "n").1.map
      (fun r => r.client.map balancedBrackets)) = Except.ok (some false) ∧
    ((compile cenvAll initState "t" "hogan.js" "n").1.map
      (fun r => r.client)) = Except.ok (some (hoganClientString "null")) ∧
    balancedBrackets "null" = true :=
  ⟨rfl, rfl, rfl⟩

/-- C7 counterexample: compiling with the identifier mustache, which is
outside the dispatch set, raises the loader error when the module is not
installed, contradicting the claim that such a compile raises no error. -/
theorem compile_unknown_engine_raises :
    (compile envNone initState "t" "mustache" "n").1 =
      Except.error (TError.backendNotInstalled
        "The mustache module isnt installed. Run npm install --save mustache") :=
  rfl

/-- C4: the loader returns the cached handle when present; on acquisition
failure it throws the error naming the identifier with the npm install
hint, caches nothing, and an immediate retry replays the very same attempt;
on success it stores the handle in the load cache and returns it. -/
theorem requires_contract (env : Env) (st : TemperState) (engine : String) :
    (∀ c, st.required engine = some c →
       requires env st engine = (Except.ok c, st, [])) ∧
    (st.required engine = none → env.modules engine = none →
       requires env st engine =
         (Except.error (TError.backendNotInstalled
           ("The " ++ engine ++ " module isnt installed. Run npm install --save " ++ engine)),
          st, [engine]) ∧
       requires env ((requires env st engine).2.1) engine = requires env st engine) ∧
    (∀ c, st.required engine = none → env.modules engine = some c →
       requires env st engine = (Except.ok c, updRequired st engine c, [engine]) ∧
       ((requires env st engine).2.1).required engine = some c) := by
  refine ⟨?_, ?_, ?_⟩
  · intro c hc
    simp [requires, hc]
  · intro h1 h2
    exact ⟨by simp [requires, h1, h2], by simp [requires, h1, h2]⟩
  · intro c h1 h2
    exact ⟨by simp [requires, h1, h2], by simp [requires, h1, h2, updRequired]⟩

/-- C4 witness: with nothing installed, loading ejs fails with the exact
message, the state is unchanged and a retry replays the attempt; with ejs
installed, loading succeeds and the handle lands in the cache. -/
theorem requires_contract_witness :
    (requires envNone initState "ejs" =
      (Except.error (TError.backendNotInstalled
        "The ejs module isnt installed. Run npm install --save ejs"), initState, ["ejs"]) ∧
     requires envNone ((requires envNone initState "ejs").2.1) "ejs" =
       requires envNone initState "ejs") ∧
    (requires cenvEjs initState "ejs" =
       (Except.ok ejsCompiler, updRequired initState "ejs" ejsCompiler, ["ejs"]) ∧
     ((requires cenvEjs initState "ejs").2.1).required "ejs" = some ejsCompiler) :=
  ⟨(requires_contract envNone initState "ejs").2.1 rfl rfl,
   (requires_contract cenvEjs initState "ejs").2.2 ejsCompiler rfl rfl⟩

/-- C6: for a file whose extension is not in the registry (and, as in every
reachable state, has no resolution-cache entry), discover throws the
unknown-extension error, mutates nothing and performs no load attempt. -/
theorem discover_unknown_extension (env : Env) (st : TemperState) (file : String)
    (hsup : supported (extnameOf file) = none)
    (hinst : st.installed (extnameOf file) = none) :
    discover env st file =
      (Except.error (TError.unknownExtension
        "Unknown file extensions, cannot detect template engine."), st, []) := by
  simp [discover, hinst, hsup]

/-- C6 witness: a css file is rejected as an unknown extension with no load
attempt even when every mustache backend is installed. -/
theorem discover_unknown_extension_witness :
    discover envAllMustache initState "style.css" =
      (Except.error (TError.unknownExtension
        "Unknown file extensions, cannot detect template engine."), initState, []) :=
  discover_unknown_extension envAllMustache initState "style.css" rfl rfl

/-- C5: for a registry extension whose every candidate fails to load,
discover throws the no-backend error whose message is exactly the fixed
prefix followed by the registry candidate list joined with the string or. -/
theorem discover_no_backend (env : Env) (st : TemperState) (file : String)
    (list : List String)
    (hsup : supported (extnameOf file) = some list)
    (hinst : st.installed (extnameOf file) = none)
    (hfail : ∀ e ∈ list, st.required e = none ∧ env.modules e = none) :
    (discover env st file).1 =
      Except.error (TError.noBackendAvailable
        ("No valid template engine installed, please install " ++ joinWith "or" list)) := by
  have hfp := filterProbe_all_fail env (extnameOf file) st list hfail
  simp [discover, hinst, hsup, hfp]

/-- C5 witness: with none of the three mustache candidates installed, the
thrown message names hogan.js, mustache and handlebars, each of which
occurs in the message text. -/
theorem discover_no_backend_witness :
    (discover envNone initState "view.mustache").1 =
      Except.error (TError.noBackendAvailable
        "No valid template engine installed, please install hogan.jsormustacheorhandlebars") ∧
    "hogan.js".toList <:+:
      "No valid template engine installed, please install hogan.jsormustacheorhandlebars".toList ∧
    "mustache".toList <:+:
      "No valid template engine installed, please install hogan.jsormustacheorhandlebars".toList ∧
    "handlebars".toList <:+:
      "No valid template engine installed, please install hogan.jsormustacheorhandlebars".toList :=
  ⟨discover_no_backend envNone initState "view.mustache"
    ["hogan.js", "mustache", "handlebars"] rfl rfl (fun _ _ => ⟨rfl, rfl⟩),
   by decide, by decide, by decide⟩

/-- C3: whenever the engines load, the library slot of the compilation
result is the contents of the companion runtime file: template.js next to
the module for hogan.js, the dist runtime for handlebars, runtime.js next
to the module for jade; and the empty string for ejs, which ships none. -/
theorem compile_library_field (env : Env) (st : TemperState) (template name : String)
    (h1 : loadable env st "hogan.js") (h2 : loadable env st "handlebars")
    (h3 : loadable env st "jade") (h4 : loadable env st "ejs") :
    ((compile env st template "hogan.js" name).1.map CompileResult.library =
      Except.ok (env.read (pathJoin (env.resolveDir "hogan.js") "template.js"))) ∧
    ((compile env st template "handlebars" name).1.map CompileResult.library =
      Except.ok (env.read (pathJoin (pathJoin (pathJoin (env.resolveDir "handlebars") "..") "dist")
        "handlebars.runtime.js"))) ∧
    ((compile env st template "jade" name).1.map CompileResult.library =
      Except.ok (env.read (pathJoin (env.resolveDir "jade") "runtime.js"))) ∧
    ((compile env st template "ejs" name).1.map CompileResult.library = Except.ok "") := by
  obtain ⟨c1, stA, logA, hr1⟩ := requires_ok_of_loadable env st _ h1
  obtain ⟨c2, stB, logB, hr2⟩ := requires_ok_of_loadable env st _ h2
  obtain ⟨c3, stC, logC, hr3⟩ := requires_ok_of_loadable env st _ h3
  obtain ⟨c4, stD, logD, hr4⟩ := requires_ok_of_loadable env st _ h4
  refine ⟨?_, ?_, ?_, ?_⟩
  · simp [compile, hr1, libContents_pathJoin, Except.map]
  · simp [compile, hr2, libContents_pathJoin, Except.map]
  · simp [compile, hr3, libContents_pathJoin, Except.map]
  · simp [compile, hr4, libContents, Except.map]

/-- C3 witness: in an environment where every module is installed and file
contents echo the path, each backend yields the contents of its runtime
file and ejs yields the empty string. -/
theorem compile_library_field_witness :
    ((compile cenvAll initState "tpl" "hogan.js" "n").1.map CompileResult.library =
      Except.ok "contents of /node_modules/hogan.js/lib/template.js") ∧
    ((compile cenvAll initState "tpl" "handlebars" "n").1.map CompileResult.library =
      Except.ok "contents of /node_modules/handlebars/lib/../dist/handlebars.runtime.js") ∧
    ((compile cenvAll initState "tpl" "jade" "n").1.map CompileResult.library =
      Except.ok "contents of /node_modules/jade/lib/runtime.js") ∧
    ((compile cenvAll initState "tpl" "ejs" "n").1.map CompileResult.library = Except.ok "") :=
  compile_library_field cenvAll initState "tpl" "n"
    (Or.inr ⟨trivialCompiler, rfl⟩) (Or.inr ⟨trivialCompiler, rfl⟩)
    (Or.inr ⟨trivialCompiler, rfl⟩) (Or.inr ⟨trivialCompiler, rfl⟩)

/-- C7 amended: for an identifier outside the dispatch set whose module
does load (cached or acquirable), compile returns the empty result with
client and server undefined and raises no error; when the module cannot be
loaded, the loader error propagates instead (see the counterexample). -/
theorem compile_unknown_engine (env : Env) (st : TemperState)
    (template eng name : String)
    (hne1 : eng ≠ "hogan.js") (hne2 : eng ≠ "handlebars")
    (hne3 : eng ≠ "ejs") (hne4 : eng ≠ "jade")
    (hl : loadable env st eng) :
    (compile env st template eng name).1 =
      Except.ok { library := "", client := none, server := none } := by
  obtain ⟨c, stA, logA, hr⟩ := requires_ok_of_loadable env st eng hl
  simp only [compile, hr]
  simp [libContents]

/-- C7 witness for the amendment: mustache is installed but has no dispatch
branch, so compiling with it returns the empty result without error. -/
theorem compile_unknown_engine_witness :
    (compile envTwoMustache initState "tpl" "mustache" "nm").1 =
      Except.ok { library := "", client := none, server := none } :=
  compile_unknown_engine envTwoMustache initState "tpl" "mustache" "nm"
    (by decide) (by decide) (by decide) (by decide)
    (Or.inr ⟨trivialCompiler, rfl⟩)

/-- C8: with ejs acquirable and no prior resolution for the ejs extension,
discover on an ejs file returns ejs, and compile with engine ejs yields an
empty library, a server slot holding the native compile result, and a
client slot equal to the client-mode debug-off compile output with the
first occurrence of the placeholder function anonymous replaced by the word
function followed by the logical name. -/
theorem ejs_compile_contract (env : Env) (st : TemperState) (c : Compiler)
    (file template name : String)
    (hext : extnameOf file = ".ejs")
    (hinst : st.installed ".ejs" = none)
    (hreq0 : st.required "ejs" = none)
    (hmod : env.modules "ejs" = some c) :
    (discover env st file).1 = Except.ok "ejs" ∧
    (compile env st template "ejs" name).1 =
      Except.ok
        ({ library := "",
           client := some (replaceFirst
             (c.compileClient template { client := true, compileDebug := false, pretty := none })
             "function anonymous" ("function " ++ name)),
           server := some (c.nativeCompile template) }) := by
  have hreq : requires env st "ejs" = (Except.ok c, updRequired st "ejs" c, ["ejs"]) := by
    simp [requires, hreq0, hmod]
  constructor
  · simp [discover, hext, hinst, supported, filterProbe, hreq]
  · simp [compile, hreq, libContents]

/-- C8 witness: with only ejs installed, discover of view.ejs returns ejs
and compiling with logical name greet produces an empty library and a
client string containing function greet. -/
theorem ejs_compile_contract_witness :
    ((discover cenvEjs initState "view.ejs").1 = Except.ok "ejs" ∧
     (compile cenvEjs initState "tpl" "ejs" "greet").1 =
       Except.ok
         ({ library := "",
            client := some (replaceFirst
              (ejsCompiler.compileClient "tpl"
                { client := true, compileDebug := false, pretty := none })
              "function anonymous" ("function " ++ "greet")),
            server := some (ejsCompiler.nativeCompile "tpl") })) ∧
    "function greet".toList <:+:
      (replaceFirst
        (ejsCompiler.compileClient "tpl"
          { client := true, compileDebug := false, pretty := none })
        "function anonymous" ("function " ++ "greet")).toList :=
  ⟨ejs_compile_contract cenvEjs initState ejsCompiler "view.ejs" "tpl" "greet"
    rfl rfl rfl rfl, by decide⟩

/-- C10: whenever discover fails, with either error, both caches are left
exactly as they were before the call. -/
theorem discover_error_atomic (env : Env) (st : TemperState) (file : String)
    (r : TError) (stF : TemperState) (log : List String)
    (h : discover env st file = (Except.error r, stF, log)) : stF = st := by
  simp only [discover] at h
  cases hinst : st.installed (extnameOf file) with
  | some engine => simp only [hinst] at h; simp at h
  | none =>
    simp only [hinst] at h
    cases hsup : supported (extnameOf file) with
    | none =>
      simp only [hsup] at h
      simp only [Prod.mk.injEq] at h
      exact h.2.1.symm
    | some list =>
      simp only [hsup] at h
      cases hfp : filterProbe env (extnameOf file) st list with
      | mk found rest3 =>
        obtain ⟨st3, log3⟩ := rest3
        simp only [hfp] at h
        cases found with
        | cons e fr => simp at h
        | nil =>
          simp only [Prod.mk.injEq] at h
          exact h.2.1.symm.trans
            (filterProbe_nil_state env (extnameOf file) st list st3 log3 hfp)

/-- C10 witness: with nothing installed, discover of a mustache file fails
with the no-backend error and leaves the fresh state exactly as it was. -/
theorem discover_error_atomic_witness :
    (discover envNone initState "view.mustache").1 =
      Except.error (TError.noBackendAvailable
        "No valid template engine installed, please install hogan.jsormustacheorhandlebars") ∧
    (discover envNone initState "view.mustache").2.1 = initState :=
  ⟨rfl, discover_error_atomic envNone initState "view.mustache" _ _ _ rfl⟩

end Temper
